import Mathlib

/-!
Shallow embedding of `src/Security_logon_logoff.py`: a one-pass pipeline that
parses Windows event-log XML, filters events by an identifier allow-list and a
local-hour window, converts timestamps from their source timezone to
America/New_York, extracts a user name for security events, sorts by the local
time string and emits console/CSV rows.

Python's `datetime` is modelled by the structure `DT` below: naive values have
`tz = none`, aware values carry their fixed UTC offset in seconds.
`datetime.fromisoformat` is modelled on the grammar subset relevant here:
`YYYY-MM-DD[<sep>HH:MM[:SS[.fff|.ffffff]][±HH:MM]]`, with field validation.
The America/New_York conversion implements the tz database rule in force since
2007 (DST from 02:00 EST on the second Sunday of March to 02:00 EDT on the
first Sunday of November; offsets −4/−5 hours), which covers every instant the
claims exercise. `astimezone` applied to a naive datetime presumes the system
timezone, which is environment-dependent; the pipeline is therefore
parametrised by `sysOff`, the offset (in seconds) the system timezone assigns
to a naive local datetime.
-/

/-- Model of a Python `datetime`: civil fields plus an optional fixed UTC
offset in seconds (`none` = naive). -/
structure DT where
  year : Int
  month : Nat
  day : Nat
  hour : Nat
  minute : Nat
  second : Nat
  micro : Nat
  tz : Option Int
deriving DecidableEq, Repr

/-- Days from 1970-01-01 to year `y`, month `m`, day `d` (proleptic Gregorian);
Howard Hinnant's `days_from_civil` algorithm with floor division. -/
def daysFromCivil (y : Int) (m d : Nat) : Int :=
  let y : Int := if m ≤ 2 then y - 1 else y
  let era : Int := Int.fdiv y 400
  let yoe : Int := y - era * 400
  let mp : Int := if m ≥ 3 then (m : Int) - 3 else (m : Int) + 9
  let doy : Int := Int.fdiv (153 * mp + 2) 5 + (d : Int) - 1
  let doe : Int := yoe * 365 + Int.fdiv yoe 4 - Int.fdiv yoe 100 + doy
  era * 146097 + doe - 719468

/-- Inverse of `daysFromCivil`: civil `(year, month, day)` of a day count
relative to 1970-01-01 (Hinnant's `civil_from_days`). -/
def civilFromDays (z0 : Int) : Int × Nat × Nat :=
  let z : Int := z0 + 719468
  let era : Int := Int.fdiv z 146097
  let doe : Int := z - era * 146097
  let yoe : Int :=
    Int.fdiv (doe - Int.fdiv doe 1460 + Int.fdiv doe 36524 - Int.fdiv doe 146096) 365
  let y : Int := yoe + era * 400
  let doy : Int := doe - (365 * yoe + Int.fdiv yoe 4 - Int.fdiv yoe 100)
  let mp : Int := Int.fdiv (5 * doy + 2) 153
  let d : Int := doy - Int.fdiv (153 * mp + 2) 5 + 1
  let m : Int := if mp < 10 then mp + 3 else mp - 9
  (y + (if m ≤ 2 then 1 else 0), m.toNat, d.toNat)

/-- Seconds from the epoch of the civil fields of `dt`, ignoring its offset. -/
def dtToSecs (dt : DT) : Int :=
  daysFromCivil dt.year dt.month dt.day * 86400
    + (dt.hour : Int) * 3600 + (dt.minute : Int) * 60 + (dt.second : Int)

/-- Weekday of an epoch day count, `0` = Sunday (1970-01-01 was a Thursday). -/
def weekday (z : Int) : Int :=
  Int.emod (z + 4) 7

/-- UTC offset (seconds) of America/New_York at the UTC instant `t` (seconds
from the epoch), per the post-2007 US DST rule: −4 h from 07:00 UTC on the
second Sunday of March to 06:00 UTC on the first Sunday of November, −5 h
otherwise. -/
def nyOffsetAt (t : Int) : Int :=
  let y := (civilFromDays (Int.fdiv t 86400)).1
  let mar1 := daysFromCivil y 3 1
  let secondSunMar := mar1 + Int.emod (7 - weekday mar1) 7 + 7
  let nov1 := daysFromCivil y 11 1
  let firstSunNov := nov1 + Int.emod (7 - weekday nov1) 7
  let dstStart := secondSunMar * 86400 + 7 * 3600
  let dstEnd := firstSunNov * 86400 + 6 * 3600
  if dstStart ≤ t ∧ t < dstEnd then -4 * 3600 else -5 * 3600

/-- Rebuild a `DT` from epoch seconds `t` shifted into the fixed offset `off`,
carrying the microsecond field through unchanged. -/
def dtFromSecs (t : Int) (off : Int) (micro : Nat) : DT :=
  let tl := t + off
  let z := Int.fdiv tl 86400
  let sod := (tl - z * 86400).toNat
  let c := civilFromDays z
  { year := c.1, month := c.2.1, day := c.2.2,
    hour := sod / 3600, minute := sod % 3600 / 60, second := sod % 60,
    micro := micro, tz := some off }

/-- Model of Python `dt.astimezone(ZoneInfo("America/New_York"))`. An aware
datetime converts through its own offset; a naive one is presumed to be in the
system timezone, whose offset assignment is the parameter `sysOff`. -/
def astimezoneNY (sysOff : DT → Int) (dt : DT) : DT :=
  let srcOff : Int := match dt.tz with
    | some o => o
    | none => sysOff dt
  let t := dtToSecs dt - srcOff
  dtFromSecs t (nyOffsetAt t) dt.micro

/-- Value of a single decimal digit character, `none` otherwise. -/
def digitVal (c : Char) : Option Nat :=
  if c.isDigit then some (c.toNat - 48) else none

/-- Two decimal digit characters as a number. -/
def twoDigits (a b : Char) : Option Nat := do
  let x ← digitVal a
  let y ← digitVal b
  pure (x * 10 + y)

/-- Numeric value of a list of digit characters (most significant first). -/
def digitsVal (cs : List Char) : Nat :=
  cs.foldl (fun a c => a * 10 + (c.toNat - 48)) 0

/-- Whether year `y` is a Gregorian leap year. -/
def isLeap (y : Nat) : Bool :=
  y % 4 = 0 && (y % 100 ≠ 0 || y % 400 = 0)

/-- Number of days in month `m` of year `y` (months 1–12). -/
def daysInMonth (y m : Nat) : Nat :=
  if m = 2 then (if isLeap y then 29 else 28)
  else if m = 4 ∨ m = 6 ∨ m = 9 ∨ m = 11 then 30
  else 31

/-- UTC offset `±HH:MM` (magnitude, in seconds) — Python builds a `timezone`
from it, which requires a strict sub-day magnitude. -/
def parseOffHM : List Char → Option Int
  | [h1, h2, ':', m1, m2] => do
    let h ← twoDigits h1 h2
    let m ← twoDigits m1 m2
    if h ≤ 23 ∧ m ≤ 59 then pure ((h * 3600 + m * 60 : Nat) : Int) else none
  | _ => none

/-- Optional trailing UTC offset: empty input means naive. -/
def parseOffset : List Char → Option (Option Int)
  | [] => some none
  | '+' :: rest => (parseOffHM rest).map (fun o => some o)
  | '-' :: rest => (parseOffHM rest).map (fun o => some (-o))
  | _ => none

/-- Optional fractional-seconds part (3 or 6 digits, as
`datetime.fromisoformat` accepts) followed by the optional offset; returns
microseconds and the offset. -/
def parseFracOffset : List Char → Option (Nat × Option Int)
  | '.' :: rest =>
    let ds := rest.takeWhile Char.isDigit
    let rest' := rest.dropWhile Char.isDigit
    if ds.length = 3 then (parseOffset rest').map (fun o => (digitsVal ds * 1000, o))
    else if ds.length = 6 then (parseOffset rest').map (fun o => (digitsVal ds, o))
    else none
  | cs => (parseOffset cs).map (fun o => (0, o))

/-- Time-of-day part `HH:MM[:SS[.frac]][±HH:MM]` with field validation. -/
def parseTimePart : List Char → Option (Nat × Nat × Nat × Nat × Option Int)
  | h1 :: h2 :: ':' :: n1 :: n2 :: rest => do
    let h ← twoDigits h1 h2
    let n ← twoDigits n1 n2
    if h ≤ 23 ∧ n ≤ 59 then
      match rest with
      | ':' :: s1 :: s2 :: rest2 => do
        let s ← twoDigits s1 s2
        if s ≤ 59 then
          let fo ← parseFracOffset rest2
          pure (h, n, s, fo.1, fo.2)
        else none
      | other => do
        let off ← parseOffset other
        pure (h, n, 0, 0, off)
    else none
  | _ => none

/-- Model of `datetime.fromisoformat` on the grammar subset
`YYYY-MM-DD[<sep>HH:MM[:SS[.fff|.ffffff]][±HH:MM]]` (the separator at index 10
may be any character, as in CPython), with the constructor's range checks. -/
def fromisoformat (cs : List Char) : Option DT :=
  match cs with
  | y1 :: y2 :: y3 :: y4 :: '-' :: o1 :: o2 :: '-' :: d1 :: d2 :: rest => do
    let yh ← twoDigits y1 y2
    let yl ← twoDigits y3 y4
    let mo ← twoDigits o1 o2
    let d ← twoDigits d1 d2
    let y := yh * 100 + yl
    if 1 ≤ y ∧ 1 ≤ mo ∧ mo ≤ 12 ∧ 1 ≤ d ∧ d ≤ daysInMonth y mo then
      match rest with
      | [] => pure ⟨(y : Int), mo, d, 0, 0, 0, 0, none⟩
      | _sep :: timeRest => do
        let t ← parseTimePart timeRest
        pure ⟨(y : Int), mo, d, t.1, t.2.1, t.2.2.1, t.2.2.2.1, t.2.2.2.2⟩
    else none
  | _ => none

/-- Python whitespace characters removed by `str.strip()`. -/
def isPySpace (c : Char) : Bool :=
  c = ' ' || c = '\t' || c = '\n' || c = '\r' || c = '\x0b' || c = '\x0c'

/-- Model of `str.strip()`. -/
def pyStrip (cs : List Char) : List Char :=
  ((cs.dropWhile isPySpace).reverse.dropWhile isPySpace).reverse

/-- Model of `s.replace("Z", "+00:00")` — every occurrence of the single
character pattern is replaced. -/
def replaceZ (cs : List Char) : List Char :=
  cs.flatMap (fun c => if c = 'Z' then ['+', '0', '0', ':', '0', '0'] else [c])

/-- Decimal digit character (values 0–9). -/
def digitChar (d : Nat) : Char :=
  match d with
  | 0 => '0' | 1 => '1' | 2 => '2' | 3 => '3' | 4 => '4'
  | 5 => '5' | 6 => '6' | 7 => '7' | 8 => '8' | _ => '9'

/-- Two-digit zero-padded rendering. -/
def pad2 (n : Nat) : List Char :=
  [digitChar (n / 10 % 10), digitChar (n % 10)]

/-- Four-digit zero-padded rendering. -/
def pad4 (n : Nat) : List Char :=
  [digitChar (n / 1000 % 10), digitChar (n / 100 % 10), digitChar (n / 10 % 10),
   digitChar (n % 10)]

/-- Rendering of a UTC offset the way `datetime.isoformat` prints `utcoffset`:
`±HH:MM`, with a `:SS` part only when the offset is not a whole minute. -/
def fmtOffset (o : Int) : List Char :=
  let sign := if o < 0 then '-' else '+'
  let a := o.natAbs
  sign :: (pad2 (a / 3600) ++ [':'] ++ pad2 (a % 3600 / 60)
    ++ (if a % 60 = 0 then [] else ':' :: pad2 (a % 60)))

/-- Model of `dt.isoformat(sep, timespec="seconds")`: civil fields at second
precision, then the offset when aware. -/
def pyIsoformat (sep : Char) (dt : DT) : String :=
  ⟨pad4 dt.year.toNat ++ ['-'] ++ pad2 dt.month ++ ['-'] ++ pad2 dt.day
    ++ [sep] ++ pad2 dt.hour ++ [':'] ++ pad2 dt.minute ++ [':'] ++ pad2 dt.second
    ++ (match dt.tz with
        | none => []
        | some o => fmtOffset o)⟩

/-- XML element as `xml.etree.ElementTree` exposes it: tag, attribute list,
optional text, child elements in document order. -/
inductive Elem where
  | mk (tag : String) (attrs : List (String × String)) (text : Option String)
       (children : List Elem)

/-- Tag of an element. -/
def Elem.tag : Elem → String
  | .mk t _ _ _ => t

/-- Attribute list of an element. -/
def Elem.attrs : Elem → List (String × String)
  | .mk _ a _ _ => a

/-- Text of an element (`None` modelled as `none`). -/
def Elem.text : Elem → Option String
  | .mk _ _ x _ => x

/-- Child elements in document order. -/
def Elem.children : Elem → List Elem
  | .mk _ _ _ c => c

/-- Model of `elem.find(tag)` for a plain tag path: first direct child with
that tag. -/
def Elem.findChild (e : Elem) (t : String) : Option Elem :=
  e.children.find? (fun c => c.tag = t)

/-- Model of `elem.findall(tag)` for a plain tag path: direct children with
that tag, in document order. -/
def Elem.findallChildren (e : Elem) (t : String) : List Elem :=
  e.children.filter (fun c => c.tag = t)

/-- Model of `elem.get(attr)`. -/
def Elem.getAttr (e : Elem) (a : String) : Option String :=
  (e.attrs.find? (fun p => p.1 = a)).map (fun p => p.2)

mutual
/-- Model of `root.findall(".//" + tag)`: all proper descendants with the
given tag, in document order (preorder). -/
def descendantsNamed (t : String) (e : Elem) : List Elem :=
  descendantsNamedIn t e.children
termination_by sizeOf e
decreasing_by
  cases e with
  | mk tag attrs text children =>
    simp [Elem.children]

/-- Descendants with the given tag found under each element of a list. -/
def descendantsNamedIn (t : String) : List Elem → List Elem
  | [] => []
  | c :: cs =>
    (if c.tag = t then [c] else []) ++ descendantsNamed t c ++ descendantsNamedIn t cs
termination_by l => sizeOf l
decreasing_by
  all_goals simp
  all_goals omega
end

/-- SYSTEM_EVENTS table from the source (identifier → label). -/
def SYSTEM_EVENTS : List (String × String) :=
  [("12", "SystemStart (Kernel-General)"),
   ("13", "SystemShutdown (Kernel-General)"),
   ("6005", "EventLog Started (Boot)"),
   ("6006", "EventLog Stopped (Shutdown)"),
   ("6008", "Unexpected Shutdown")]

/-- SECURITY_EVENTS table from the source (identifier → label). -/
def SECURITY_EVENTS : List (String × String) :=
  [("4624", "Logon Success"),
   ("4625", "Logon Failure"),
   ("4634", "Logoff"),
   ("4647", "User Initiated Logoff"),
   ("4672", "Special Privileges Assigned"),
   ("4800", "Workstation Locked"),
   ("4801", "Workstation Unlocked")]

/-- Dictionary lookup on an association list (dict keys here are disjoint, so
first match is the merged-dict semantics). -/
def tableLookup (tbl : List (String × String)) (k : String) : Option String :=
  (tbl.find? (fun p => p.1 = k)).map (fun p => p.2)

/-- ALL_EVENTS = `{**SYSTEM_EVENTS, **SECURITY_EVENTS}`; the key sets are
disjoint, so list concatenation models the merge. -/
def ALL_EVENTS : List (String × String) :=
  SYSTEM_EVENTS ++ SECURITY_EVENTS

/-- WINDOW_START_HOUR constant. -/
def WINDOW_START_HOUR : Nat := 9

/-- WINDOW_END_HOUR constant. -/
def WINDOW_END_HOUR : Nat := 18

/-- Model of `try_iso_to_dt_utc`: reject `None`/empty, strip, rewrite a
trailing `Z` to `+00:00`, then attempt `fromisoformat`; `none` on failure. -/
def try_iso_to_dt_utc (iso : Option String) : Option DT :=
  match iso with
  | none => none
  | some s0 =>
    if s0 = "" then none
    else
      let s := pyStrip s0.toList
      let s := if s.getLast? = some 'Z' then s.dropLast ++ ['+', '0', '0', ':', '0', '0'] else s
      fromisoformat s

/-- Model of `in_window_local`. -/
def in_window_local (dt : DT) : Bool :=
  WINDOW_START_HOUR ≤ dt.hour && dt.hour < WINDOW_END_HOUR

/-- Model of `get_text(elem, path)` for the single-tag paths the script uses. -/
def get_text (e : Elem) (path : String) : Option String :=
  match e.findChild path with
  | some x => x.text
  | none => none

/-- Model of `get_attr(elem, path, attr)`. -/
def get_attr (e : Elem) (path : String) (a : String) : Option String :=
  match e.findChild path with
  | some x => x.getAttr a
  | none => none

/-- Model of `extract_username`: walk the `Data` children of the first
`EventData` child; the first one whose `Name` is `TargetUserName` or
`SubjectUserName` and whose text is truthy supplies the user. -/
def extract_username (ev : Elem) : Option String :=
  match ev.findChild "EventData" with
  | none => none
  | some ed =>
    (ed.findallChildren "Data").findSome? (fun d =>
      if d.getAttr "Name" = some "TargetUserName" ∨ d.getAttr "Name" = some "SubjectUserName" then
        match d.text with
        | some s => if s = "" then none else some s
        | none => none
      else none)

/-- Python truthiness fallback `x or "-"`: `None` and the empty string give
the sentinel. -/
def pyOrDash (o : Option String) : String :=
  match o with
  | none => "-"
  | some s => if s = "" then "-" else s

/-- Error raised on the unguarded fallback line of `iter_relevant_events`:
`AttributeError` when the raw timestamp attribute is `None`, `ValueError`
when `datetime.fromisoformat` rejects the substituted string. -/
inductive PyErr where
  | attrError
  | valueError
deriving DecidableEq, Repr

/-- Output row of `iter_relevant_events` (the dict the generator yields). -/
structure Row where
  source : String
  event_id : String
  label : String
  provider : String
  computer : String
  utc_time : String
  local_time : String
  user : String
deriving DecidableEq, Repr

/-- Unguarded fallback of `iter_relevant_events` line 84: re-parse the raw
attribute with all `Z`s replaced — raising when the attribute is absent
(`AttributeError` on `None.replace`) or the re-parse fails (`ValueError`).
The re-parsed value may still be naive. -/
def retryParse (st : Option String) : Except PyErr DT :=
  match st with
  | none => .error .attrError
  | some raw =>
    match fromisoformat (replaceZ raw.toList) with
    | none => .error .valueError
    | some dt => .ok dt

/-- Timestamp resolution of `iter_relevant_events` lines 80–84: first
`try_iso_to_dt_utc`; when that yields nothing or a naive value, fall back to
`retryParse`. -/
def resolveTimestamp (st : Option String) : Except PyErr DT :=
  match try_iso_to_dt_utc st with
  | none => retryParse st
  | some dt => if dt.tz.isNone then retryParse st else .ok dt

/-- Per-record body of `iter_relevant_events`: `ok none` for a skipped record,
`ok (some row)` for a yielded row, `error` when the timestamp fallback
raises. -/
def normalizeEvent (sysOff : DT → Int) (ev : Elem) : Except PyErr (Option Row) :=
  match ev.findChild "System" with
  | none => .ok none
  | some system =>
    match get_text system "EventID" with
    | none => .ok none
    | some eid =>
      if (tableLookup ALL_EVENTS eid).isSome then
        match resolveTimestamp (get_attr system "TimeCreated" "SystemTime") with
        | .error e => .error e
        | .ok dtUtc =>
          if in_window_local (astimezoneNY sysOff dtUtc) then
            .ok (some
              { source := if (tableLookup SECURITY_EVENTS eid).isSome then "security" else "system",
                event_id := eid,
                label := if eid = "4634" then "Logoff"
                         else (tableLookup ALL_EVENTS eid).getD "",
                provider := pyOrDash (get_attr system "Provider" "Name"),
                computer := pyOrDash (get_text system "Computer"),
                utc_time := pyIsoformat 'T' dtUtc,
                local_time := pyIsoformat ' ' (astimezoneNY sysOff dtUtc),
                user := pyOrDash (if (tableLookup SECURITY_EVENTS eid).isSome then
                                    extract_username ev
                                  else none) })
          else .ok none
      else .ok none

/-- Exhaust a list of event elements through `normalizeEvent`, as
`list(iter_relevant_events(root))` does: the first raised error aborts with
nothing collected. -/
def collectRows (sysOff : DT → Int) : List Elem → Except PyErr (List Row)
  | [] => .ok []
  | e :: es =>
    match normalizeEvent sysOff e with
    | .error err => .error err
    | .ok none => collectRows sysOff es
    | .ok (some r) => (collectRows sysOff es).map (fun rs => r :: rs)

/-- Model of `list(iter_relevant_events(root))`. -/
def iter_relevant_events (sysOff : DT → Int) (root : Elem) : Except PyErr (List Row) :=
  collectRows sysOff (descendantsNamed "Event" root)

/-- Comparison `rows.sort(key=lambda r: r["local_time"])` sorts by. -/
def rowLe (a b : Row) : Prop :=
  a.local_time ≤ b.local_time

instance : DecidableRel rowLe := fun a b =>
  inferInstanceAs (Decidable (a.local_time ≤ b.local_time))

instance : IsTotal Row rowLe := ⟨fun a b => le_total a.local_time b.local_time⟩

instance : IsTrans Row rowLe := ⟨fun _ _ _ h h' => le_trans h h'⟩

/-- Model of `rows.sort(key=lambda r: r["local_time"])`: Python's sort is
stable, modelled by stable insertion sort on the key. -/
def sortRows (rows : List Row) : List Row :=
  List.insertionSort rowLe rows

/-- Rows of `main` after the sort — the list both the console report and the
CSV body are rendered from, in order. -/
def mainRows (sysOff : DT → Int) (root : Elem) : Except PyErr (List Row) :=
  (iter_relevant_events sysOff root).map sortRows

/-- Console line of `main` for one row. -/
def formatConsoleLine (r : Row) : String :=
  r.local_time ++ " [" ++ r.source ++ "] EventID=" ++ r.event_id ++ " " ++ r.label
    ++ " | Provider=" ++ r.provider ++ " | Computer=" ++ r.computer
    ++ " | User=" ++ r.user

/-- CSV data row of `main` for one row (header not included). -/
def csvFields (r : Row) : List String :=
  [r.source, r.event_id, r.label, r.local_time, r.utc_time, r.provider,
   r.computer, r.user]

/-- Specification-side description of the user field of a security record,
written from the claim's words: the text of the first `Data` child of
`EventData` (document order) whose `Name` attribute is `TargetUserName` or
`SubjectUserName` and whose text is non-empty, and the sentinel `-` when no
such field exists. -/
def specUserValue (ev : Elem) : String :=
  match ev.findChild "EventData" with
  | none => "-"
  | some ed =>
    match (ed.findallChildren "Data").find? (fun d =>
        decide ((d.getAttr "Name" = some "TargetUserName" ∨
                 d.getAttr "Name" = some "SubjectUserName") ∧
                d.text.getD "" ≠ "")) with
    | some d => d.text.getD ""
    | none => "-"

/-- System-timezone assignment of a machine running in UTC (offset 0 for
every naive datetime). -/
def sysTzUTC : DT → Int := fun _ => 0

/-- System-timezone assignment of a machine pinned to UTC−05:00 (the
America/New_York standard offset, DST ignored for simplicity). -/
def sysTzEST : DT → Int := fun _ => -18000

/-- Single security event record of the C2 scenario: identifier 4624,
SystemTime `2025-08-21T13:05:00Z`, TargetUserName `alice`. -/
def evScenario : Elem :=
  .mk "Event" [] none
    [.mk "System" [] none
       [.mk "EventID" [] (some "4624") [],
        .mk "TimeCreated" [("SystemTime", "2025-08-21T13:05:00Z")] none []],
     .mk "EventData" [] none
       [.mk "Data" [("Name", "TargetUserName")] (some "alice") []]]

/-- Root holding exactly the C2 scenario record. -/
def rootScenario : Elem := .mk "Events" [] none [evScenario]

/-- Event record whose timestamp lacks timezone information (used against
the UTC-assumption claim). -/
def evNaiveTs : Elem :=
  .mk "Event" [] none
    [.mk "System" [] none
       [.mk "EventID" [] (some "4624") [],
        .mk "TimeCreated" [("SystemTime", "2025-08-21T13:05:00")] none []]]

/-- Allow-listed event record with no `SystemTime` attribute at all. -/
def evNoTs : Elem :=
  .mk "Event" [] none
    [.mk "System" [] none
       [.mk "EventID" [] (some "4624") [],
        .mk "TimeCreated" [] none []]]

/-- Root holding only the timestamp-less record. -/
def rootNoTs : Elem := .mk "Events" [] none [evNoTs]

/-- Event record carrying an explicit non-UTC source offset `+05:00`
(18:05 at +05:00 is 13:05 UTC, 09:05 in New York). -/
def evPlus5 : Elem :=
  .mk "Event" [] none
    [.mk "System" [] none
       [.mk "EventID" [] (some "4624") [],
        .mk "TimeCreated" [("SystemTime", "2025-08-21T18:05:00+05:00")] none []]]

/-- Root with two equal-timestamp security records (users `alice` then `bob`)
after a later-in-the-day record, exercising sort order and stability. -/
def rootTies : Elem :=
  .mk "Events" [] none
    [.mk "Event" [] none
       [.mk "System" [] none
          [.mk "EventID" [] (some "4634") [],
           .mk "TimeCreated" [("SystemTime", "2025-08-21T14:10:00Z")] none []]],
     .mk "Event" [] none
       [.mk "System" [] none
          [.mk "EventID" [] (some "4624") [],
           .mk "TimeCreated" [("SystemTime", "2025-08-21T13:05:00Z")] none []],
        .mk "EventData" [] none
          [.mk "Data" [("Name", "TargetUserName")] (some "alice") []]],
     .mk "Event" [] none
       [.mk "System" [] none
          [.mk "EventID" [] (some "4624") [],
           .mk "TimeCreated" [("SystemTime", "2025-08-21T13:05:00Z")] none []],
        .mk "EventData" [] none
          [.mk "Data" [("Name", "TargetUserName")] (some "bob") []]]]

/-- Event record whose local time is exactly 18:00:00 (22:00 UTC in August
is 18:00 EDT): the window's exclusive upper bound rejects it. -/
def evSixPM : Elem :=
  .mk "Event" [] none
    [.mk "System" [] none
       [.mk "EventID" [] (some "4624") [],
        .mk "TimeCreated" [("SystemTime", "2025-08-21T22:00:00Z")] none []]]

/-- System-category record (identifier 6006) that nevertheless carries an
EventData field named TargetUserName. -/
def evSys6006 : Elem :=
  .mk "Event" [] none
    [.mk "System" [] none
       [.mk "EventID" [] (some "6006") [],
        .mk "TimeCreated" [("SystemTime", "2025-08-21T13:05:00Z")] none []],
     .mk "EventData" [] none
       [.mk "Data" [("Name", "TargetUserName")] (some "mallory") []]]

/-- Inversion of a yielded row: every field of the row is the prescribed
function of the record, the identifier passed the allow-list, the timestamp
resolved, and the local hour passed the window check. -/
theorem normalizeEvent_ok_some_inv (sysOff : DT → Int) (ev : Elem) (r : Row)
    (h : normalizeEvent sysOff ev = .ok (some r)) :
    ∃ system eid dtUtc,
      ev.findChild "System" = some system ∧
      get_text system "EventID" = some eid ∧
      (tableLookup ALL_EVENTS eid).isSome = true ∧
      resolveTimestamp (get_attr system "TimeCreated" "SystemTime") = .ok dtUtc ∧
      in_window_local (astimezoneNY sysOff dtUtc) = true ∧
      r.source = (if (tableLookup SECURITY_EVENTS eid).isSome then "security" else "system") ∧
      r.event_id = eid ∧
      r.label = (if eid = "4634" then "Logoff" else (tableLookup ALL_EVENTS eid).getD "") ∧
      r.provider = pyOrDash (get_attr system "Provider" "Name") ∧
      r.computer = pyOrDash (get_text system "Computer") ∧
      r.utc_time = pyIsoformat 'T' dtUtc ∧
      r.local_time = pyIsoformat ' ' (astimezoneNY sysOff dtUtc) ∧
      r.user = pyOrDash (if (tableLookup SECURITY_EVENTS eid).isSome then
                           extract_username ev
                         else none) := by
  unfold normalizeEvent at h
  split at h
  · simp at h
  rename_i system hfs
  split at h
  · simp at h
  rename_i eid heid
  split at h
  case isFalse => simp at h
  case isTrue hin =>
    split at h
    · simp at h
    rename_i dtUtc hres
    split at h
    case isFalse => simp at h
    case isTrue hwin =>
      obtain rfl := (Option.some.inj (Except.ok.inj h)).symm
      exact ⟨system, eid, dtUtc, hfs, heid, hin, hres, hwin,
        rfl, rfl, rfl, rfl, rfl, rfl, rfl, rfl⟩

/-- Inversion of a raised error: it can only come from the timestamp
resolution of an allow-listed record. -/
theorem normalizeEvent_error_inv (sysOff : DT → Int) (ev : Elem) (err : PyErr)
    (h : normalizeEvent sysOff ev = .error err) :
    ∃ system eid,
      ev.findChild "System" = some system ∧
      get_text system "EventID" = some eid ∧
      (tableLookup ALL_EVENTS eid).isSome = true ∧
      resolveTimestamp (get_attr system "TimeCreated" "SystemTime") = .error err := by
  unfold normalizeEvent at h
  split at h
  · simp at h
  rename_i system hfs
  split at h
  · simp at h
  rename_i eid heid
  split at h
  case isFalse => simp at h
  case isTrue hin =>
    split at h
    case _ e hres =>
      obtain rfl := Except.error.inj h
      exact ⟨system, eid, hfs, heid, hin, hres⟩
    rename_i dtUtc hres
    split at h <;> simp at h

/-- Forward construction of a raised error from a failing timestamp
resolution on an allow-listed record. -/
theorem normalizeEvent_error_of (sysOff : DT → Int) (ev system : Elem)
    (eid : String) (err : PyErr)
    (hfs : ev.findChild "System" = some system)
    (heid : get_text system "EventID" = some eid)
    (hin : (tableLookup ALL_EVENTS eid).isSome = true)
    (hres : resolveTimestamp (get_attr system "TimeCreated" "SystemTime") = .error err) :
    normalizeEvent sysOff ev = .error err := by
  unfold normalizeEvent
  rw [hfs]
  simp only [heid, hin, hres, if_true]

/-- A record whose normalization raises makes the whole collection raise. -/
theorem collectRows_error_of_mem (sysOff : DT → Int) (l : List Elem) (ev : Elem)
    (err : PyErr) (hmem : ev ∈ l) (herr : normalizeEvent sysOff ev = .error err) :
    ∃ e, collectRows sysOff l = .error e := by
  induction l with
  | nil => cases hmem
  | cons a l ih =>
    rcases List.mem_cons.mp hmem with rfl | hm
    · exact ⟨err, by simp [collectRows, herr]⟩
    · obtain ⟨e, he⟩ := ih hm
      unfold collectRows
      match ha : normalizeEvent sysOff a with
      | .error e' => exact ⟨e', rfl⟩
      | .ok none => exact ⟨e, he⟩
      | .ok (some r) => exact ⟨e, by rw [he]; rfl⟩

/-- List core of the user scan: iterating with the truthy-text early exit is
the same as locating the first qualifying field. -/
theorem findSome_user_eq_find (l : List Elem) :
    pyOrDash (l.findSome? (fun d =>
        if d.getAttr "Name" = some "TargetUserName" ∨
           d.getAttr "Name" = some "SubjectUserName" then
          match d.text with
          | some s => if s = "" then none else some s
          | none => none
        else none)) =
      (match l.find? (fun d =>
          decide ((d.getAttr "Name" = some "TargetUserName" ∨
                   d.getAttr "Name" = some "SubjectUserName") ∧
                  d.text.getD "" ≠ "")) with
       | some d => d.text.getD ""
       | none => "-") := by
  induction l with
  | nil => rfl
  | cons d ds ih =>
    by_cases hname : d.getAttr "Name" = some "TargetUserName" ∨
                     d.getAttr "Name" = some "SubjectUserName"
    · cases htext : d.text with
      | none =>
        simpa [List.findSome?_cons, List.find?_cons, hname, htext] using ih
      | some s =>
        by_cases hs : s = ""
        · simpa [List.findSome?_cons, List.find?_cons, hname, htext, hs] using ih
        · simp [List.findSome?_cons, List.find?_cons, hname, htext, hs, pyOrDash]
    · simpa [List.findSome?_cons, List.find?_cons, hname] using ih

/-- The scan of `extract_username` (first name-matching `Data` child with
truthy text, else the sentinel through `or "-"`) coincides with the
specification's first-qualifying-field description. -/
theorem extract_username_eq_spec (ev : Elem) :
    pyOrDash (extract_username ev) = specUserValue ev := by
  unfold extract_username specUserValue
  cases hed : ev.findChild "EventData" with
  | none => rfl
  | some ed => exact findSome_user_eq_find (ed.findallChildren "Data")

/-- A table lookup succeeds exactly when the key is one of the table's keys. -/
theorem tableLookup_isSome (t : List (String × String)) (k : String) :
    (tableLookup t k).isSome = true ↔ k ∈ t.map Prod.fst := by
  induction t with
  | nil => simp [tableLookup]
  | cons p t ih =>
    by_cases hp : p.1 = k
    · simp [tableLookup, List.find?, hp]
    · have hk : ¬(k = p.1) := fun hc => hp hc.symm
      simp only [tableLookup, List.find?] at ih ⊢
      simp [hp, hk, ih]

/-- The system and security identifier tables have disjoint key sets. -/
theorem system_security_disjoint (eid : String)
    (h : (tableLookup SYSTEM_EVENTS eid).isSome = true) :
    tableLookup SECURITY_EVENTS eid = none := by
  rw [tableLookup_isSome] at h
  simp only [SYSTEM_EVENTS, List.map, List.mem_cons, List.not_mem_nil, or_false] at h
  rcases h with rfl | rfl | rfl | rfl | rfl <;> rfl

/-- Membership in the merged table splits into the two categories. -/
theorem tableLookup_all_split (eid : String)
    (h : (tableLookup ALL_EVENTS eid).isSome = true) :
    (tableLookup SYSTEM_EVENTS eid).isSome = true ∨
    (tableLookup SECURITY_EVENTS eid).isSome = true := by
  rw [tableLookup_isSome] at h
  rw [tableLookup_isSome, tableLookup_isSome]
  simpa [ALL_EVENTS, List.map_append, List.mem_append] using h

/-- Inserting a row keeps the sublist at any fixed key value intact: all rows
the insertion jumps over compare strictly below the inserted row's key. -/
theorem filter_orderedInsert (k : String) (a : Row) (l : List Row) :
    (List.orderedInsert rowLe a l).filter (fun r => r.local_time == k) =
      (if a.local_time == k then [a] else [])
        ++ l.filter (fun r => r.local_time == k) := by
  induction l with
  | nil =>
    simp only [List.orderedInsert_nil, List.filter]
    by_cases ha : a.local_time == k <;> simp [ha]
  | cons b l ih =>
    by_cases hab : rowLe a b
    · rw [List.orderedInsert_of_le rowLe l hab]
      by_cases ha : a.local_time == k <;> simp [List.filter, ha]
    · have hlt : b.local_time < a.local_time := by
        simpa [rowLe] using lt_of_not_le (fun hle => hab hle)
      have hne : ¬(b.local_time = a.local_time) := ne_of_lt hlt
      rw [show List.orderedInsert rowLe a (b :: l) = b :: List.orderedInsert rowLe a l from by
        simp [List.orderedInsert, hab]]
      by_cases hb : b.local_time == k
      · have hbk : b.local_time = k := by simpa using hb
        have hak : ¬(a.local_time == k) := by
          simp only [beq_iff_eq]
          intro hc
          exact hne (hbk.trans hc.symm)
        simp [List.filter, hb, ih, hak]
      · simp [List.filter, hb, ih]

/-- The stable sort preserves, for every key value, the exact subsequence of
rows carrying that key. -/
theorem filter_sortRows (k : String) (l : List Row) :
    (sortRows l).filter (fun r => r.local_time == k) =
      l.filter (fun r => r.local_time == k) := by
  induction l with
  | nil => rfl
  | cons a l ih =>
    show (List.orderedInsert rowLe a (List.insertionSort rowLe l)).filter _ = _
    rw [filter_orderedInsert k a (List.insertionSort rowLe l)]
    by_cases ha : a.local_time == k <;> simp [List.filter, ha, ih.symm, sortRows]



/-- Claim C1 (code bug): for an ISO timestamp with no timezone information the
code does not attach offset +00:00. The substitution fallback re-parses the
raw string, whose lack of a `Z` makes the replacement a no-op, so the datetime
stays naive and `astimezone` interprets it in the *system* timezone: under a
UTC system timezone and under an EST one the very same record is emitted with
different local times, and its `utc_time` column carries no offset at all. -/
theorem c1_naive_timestamp_not_utc :
    try_iso_to_dt_utc (some "2025-08-21T13:05:00") =
      some ⟨2025, 8, 21, 13, 5, 0, 0, none⟩ ∧
    resolveTimestamp (some "2025-08-21T13:05:00") =
      .ok ⟨2025, 8, 21, 13, 5, 0, 0, none⟩ ∧
    normalizeEvent sysTzUTC evNaiveTs = .ok (some
      { source := "security", event_id := "4624", label := "Logon Success",
        provider := "-", computer := "-",
        utc_time := "2025-08-21T13:05:00",
        local_time := "2025-08-21 09:05:00-04:00", user := "-" }) ∧
    normalizeEvent sysTzEST evNaiveTs = .ok (some
      { source := "security", event_id := "4624", label := "Logon Success",
        provider := "-", computer := "-",
        utc_time := "2025-08-21T13:05:00",
        local_time := "2025-08-21 14:05:00-04:00", user := "-" }) :=
  ⟨rfl, rfl, rfl, rfl⟩

/-- Claim C2 as frozen is false on the code: at its own single-record
scenario the pipeline emits the row, but `local_time` is rendered by
`isoformat(sep=" ", timespec="seconds")` on an aware datetime, which appends
the UTC offset, so the string is `2025-08-21 09:05:00-04:00`, not the claimed
`2025-08-21 09:05:00`. -/
theorem c2_counterexample :
    mainRows sysTzUTC rootScenario =
      .ok [{ source := "security", event_id := "4624", label := "Logon Success",
             provider := "-", computer := "-",
             utc_time := "2025-08-21T13:05:00+00:00",
             local_time := "2025-08-21 09:05:00-04:00", user := "alice" }] ∧
    ("2025-08-21 09:05:00-04:00" : String) ≠ "2025-08-21 09:05:00" := by
  constructor
  · simp only [mainRows, iter_relevant_events, rootScenario, evScenario,
      descendantsNamed, descendantsNamedIn, Elem.children, Elem.tag]
    rfl
  · decide

/-- Claim C2 (amended): on the single-record scenario (identifier 4624,
SystemTime 2025-08-21T13:05:00Z, TargetUserName alice) the pipeline emits
exactly one row with source `security`, event_id `4624`, label
`Logon Success`, local_time `2025-08-21 09:05:00-04:00` (EDT offset −4,
rendered with its offset), and user `alice`. -/
theorem c2_scenario :
    mainRows sysTzUTC rootScenario =
      .ok [{ source := "security", event_id := "4624", label := "Logon Success",
             provider := "-", computer := "-",
             utc_time := "2025-08-21T13:05:00+00:00",
             local_time := "2025-08-21 09:05:00-04:00", user := "alice" }] := by
  simp only [mainRows, iter_relevant_events, rootScenario, evScenario,
    descendantsNamed, descendantsNamedIn, Elem.children, Elem.tag]
  rfl

/-- Claim C3: the emitted rows — the single sorted list both the console and
the CSV renderings are produced from — are non-decreasing in the `local_time`
string, and the sort is stable: for every key value, the subsequence of rows
whose `local_time` equals that key is exactly the subsequence in input
order. -/
theorem c3_sorted_stable (sysOff : DT → Int) (root : Elem) (rows : List Row)
    (k : String) (h : iter_relevant_events sysOff root = .ok rows) :
    mainRows sysOff root = .ok (sortRows rows) ∧
    List.Sorted rowLe (sortRows rows) ∧
    (sortRows rows).filter (fun r => r.local_time == k) =
      rows.filter (fun r => r.local_time == k) :=
  ⟨by simp [mainRows, h, Except.map], List.sorted_insertionSort rowLe rows,
   filter_sortRows k rows⟩

/-- Witness for C3 at a concrete input with two tied rows: the later Logoff
record comes first in the input, the two 09:05 records keep their input order
(alice before bob) and land before it after sorting. -/
theorem c3_sorted_stable_witness :
    mainRows sysTzUTC rootTies = .ok (sortRows
      [{ source := "security", event_id := "4634", label := "Logoff",
         provider := "-", computer := "-",
         utc_time := "2025-08-21T14:10:00+00:00",
         local_time := "2025-08-21 10:10:00-04:00", user := "-" },
       { source := "security", event_id := "4624", label := "Logon Success",
         provider := "-", computer := "-",
         utc_time := "2025-08-21T13:05:00+00:00",
         local_time := "2025-08-21 09:05:00-04:00", user := "alice" },
       { source := "security", event_id := "4624", label := "Logon Success",
         provider := "-", computer := "-",
         utc_time := "2025-08-21T13:05:00+00:00",
         local_time := "2025-08-21 09:05:00-04:00", user := "bob" }]) ∧
    List.Sorted rowLe (sortRows
      [{ source := "security", event_id := "4634", label := "Logoff",
         provider := "-", computer := "-",
         utc_time := "2025-08-21T14:10:00+00:00",
         local_time := "2025-08-21 10:10:00-04:00", user := "-" },
       { source := "security", event_id := "4624", label := "Logon Success",
         provider := "-", computer := "-",
         utc_time := "2025-08-21T13:05:00+00:00",
         local_time := "2025-08-21 09:05:00-04:00", user := "alice" },
       { source := "security", event_id := "4624", label := "Logon Success",
         provider := "-", computer := "-",
         utc_time := "2025-08-21T13:05:00+00:00",
         local_time := "2025-08-21 09:05:00-04:00", user := "bob" }]) ∧
    (sortRows
      [{ source := "security", event_id := "4634", label := "Logoff",
         provider := "-", computer := "-",
         utc_time := "2025-08-21T14:10:00+00:00",
         local_time := "2025-08-21 10:10:00-04:00", user := "-" },
       { source := "security", event_id := "4624", label := "Logon Success",
         provider := "-", computer := "-",
         utc_time := "2025-08-21T13:05:00+00:00",
         local_time := "2025-08-21 09:05:00-04:00", user := "alice" },
       { source := "security", event_id := "4624", label := "Logon Success",
         provider := "-", computer := "-",
         utc_time := "2025-08-21T13:05:00+00:00",
         local_time := "2025-08-21 09:05:00-04:00", user := "bob" }]).filter
        (fun r => r.local_time == "2025-08-21 09:05:00-04:00") =
      ([{ source := "security", event_id := "4634", label := "Logoff",
          provider := "-", computer := "-",
          utc_time := "2025-08-21T14:10:00+00:00",
          local_time := "2025-08-21 10:10:00-04:00", user := "-" },
        { source := "security", event_id := "4624", label := "Logon Success",
          provider := "-", computer := "-",
          utc_time := "2025-08-21T13:05:00+00:00",
          local_time := "2025-08-21 09:05:00-04:00", user := "alice" },
        { source := "security", event_id := "4624", label := "Logon Success",
          provider := "-", computer := "-",
          utc_time := "2025-08-21T13:05:00+00:00",
          local_time := "2025-08-21 09:05:00-04:00", user := "bob" }] : List Row).filter
        (fun r => r.local_time == "2025-08-21 09:05:00-04:00") :=
  c3_sorted_stable sysTzUTC rootTies _ "2025-08-21 09:05:00-04:00"
    (by
      simp only [iter_relevant_events, rootTies, descendantsNamed,
        descendantsNamedIn, Elem.children, Elem.tag]
      rfl)

/-- Claim C4: for every emitted security-category row, the user value is the
text of the first `Data` child (document order) of the record's `EventData`
whose `Name` attribute is `TargetUserName` or `SubjectUserName` and whose
text is non-empty — first occurrence wins with no preference between the two
names — and the sentinel `-` when no such field exists. -/
theorem c4_user_first_match (sysOff : DT → Int) (ev : Elem) (r : Row)
    (h : normalizeEvent sysOff ev = .ok (some r)) (hsec : r.source = "security") :
    r.user = specUserValue ev := by
  obtain ⟨system, eid, dtUtc, hfs, heid, hin, hres, hwin,
    hsrc, hid, hlab, hprov, hcomp, hutc, hloc, huser⟩ :=
    normalizeEvent_ok_some_inv sysOff ev r h
  by_cases hs : (tableLookup SECURITY_EVENTS eid).isSome = true
  · simp only [hs, if_true] at huser
    exact huser.trans (extract_username_eq_spec ev)
  · exfalso
    simp only [hs, if_false] at hsrc
    rw [hsrc] at hsec
    exact absurd hsec (by decide)

/-- Witness for C4 at the scenario record: the emitted row's user is the
specification's first qualifying field of that record. -/
theorem c4_user_first_match_witness :
    ({ source := "security", event_id := "4624", label := "Logon Success",
       provider := "-", computer := "-",
       utc_time := "2025-08-21T13:05:00+00:00",
       local_time := "2025-08-21 09:05:00-04:00", user := "alice" } : Row).user =
      specUserValue evScenario :=
  c4_user_first_match sysTzUTC evScenario _ rfl rfl

/-- Claim C5: every emitted row's local timestamp has hour-of-day in the
half-open window [9, 18); in particular a record whose local time is exactly
18:00:00 (`evSixPM`) is skipped rather than emitted. -/
theorem c5_window_invariant :
    (∀ (sysOff : DT → Int) (ev : Elem) (r : Row),
       normalizeEvent sysOff ev = .ok (some r) →
       ∃ dtLocal, r.local_time = pyIsoformat ' ' dtLocal ∧
         WINDOW_START_HOUR ≤ dtLocal.hour ∧ dtLocal.hour < WINDOW_END_HOUR) ∧
    normalizeEvent sysTzUTC evSixPM = .ok none := by
  constructor
  · intro sysOff ev r h
    obtain ⟨system, eid, dtUtc, hfs, heid, hin, hres, hwin,
      hsrc, hid, hlab, hprov, hcomp, hutc, hloc, huser⟩ :=
      normalizeEvent_ok_some_inv sysOff ev r h
    refine ⟨astimezoneNY sysOff dtUtc, hloc, ?_⟩
    simpa [in_window_local, Bool.and_eq_true, decide_eq_true_eq] using hwin
  · rfl

/-- Witness for C5 at the scenario record: its emitted local time 09:05:00
has an hour inside the window. -/
theorem c5_window_invariant_witness :
    ∃ dtLocal,
      ({ source := "security", event_id := "4624", label := "Logon Success",
         provider := "-", computer := "-",
         utc_time := "2025-08-21T13:05:00+00:00",
         local_time := "2025-08-21 09:05:00-04:00", user := "alice" } : Row).local_time =
        pyIsoformat ' ' dtLocal ∧
      WINDOW_START_HOUR ≤ dtLocal.hour ∧ dtLocal.hour < WINDOW_END_HOUR :=
  c5_window_invariant.1 sysTzUTC evScenario _ rfl

/-- Claim C6: an emitted row's user is non-sentinel only when its category is
security, and every row whose identifier is a key of the system table carries
the sentinel user even if user-like EventData fields are present. -/
theorem c6_user_only_security (sysOff : DT → Int) (ev : Elem) (r : Row)
    (h : normalizeEvent sysOff ev = .ok (some r)) :
    (r.user ≠ "-" → r.source = "security") ∧
    ((tableLookup SYSTEM_EVENTS r.event_id).isSome = true → r.user = "-") := by
  obtain ⟨system, eid, dtUtc, hfs, heid, hin, hres, hwin,
    hsrc, hid, hlab, hprov, hcomp, hutc, hloc, huser⟩ :=
    normalizeEvent_ok_some_inv sysOff ev r h
  constructor
  · intro hu
    by_cases hs : (tableLookup SECURITY_EVENTS eid).isSome = true
    · simpa [hs] using hsrc
    · exfalso
      simp only [hs, if_false] at huser
      exact hu (huser.trans rfl)
  · intro hsys
    rw [hid] at hsys
    have hdisj := system_security_disjoint eid hsys
    have hs : (tableLookup SECURITY_EVENTS eid).isSome = false := by
      simp [hdisj]
    simp only [hs, if_false] at huser
    exact huser.trans rfl

/-- Witness for C6 at the 6006 record that carries a TargetUserName field:
its row exists and both conjuncts hold there (its user is the sentinel). -/
theorem c6_user_only_security_witness :
    (({ source := "system", event_id := "6006",
        label := "EventLog Stopped (Shutdown)", provider := "-", computer := "-",
        utc_time := "2025-08-21T13:05:00+00:00",
        local_time := "2025-08-21 09:05:00-04:00", user := "-" } : Row).user ≠ "-" →
      ({ source := "system", event_id := "6006",
         label := "EventLog Stopped (Shutdown)", provider := "-", computer := "-",
         utc_time := "2025-08-21T13:05:00+00:00",
         local_time := "2025-08-21 09:05:00-04:00", user := "-" } : Row).source =
        "security") ∧
    ((tableLookup SYSTEM_EVENTS
        ({ source := "system", event_id := "6006",
           label := "EventLog Stopped (Shutdown)", provider := "-", computer := "-",
           utc_time := "2025-08-21T13:05:00+00:00",
           local_time := "2025-08-21 09:05:00-04:00", user := "-" } : Row).event_id).isSome =
        true →
      ({ source := "system", event_id := "6006",
         label := "EventLog Stopped (Shutdown)", provider := "-", computer := "-",
         utc_time := "2025-08-21T13:05:00+00:00",
         local_time := "2025-08-21 09:05:00-04:00", user := "-" } : Row).user = "-") :=
  c6_user_only_security sysTzUTC evSys6006 _ rfl

/-- Claim C7: an allow-listed record whose timestamp attribute is absent, or
present but unparsable even after the Z→+00:00 substitution (and not already
parsed timezone-aware), makes the run abort: the whole collection returns an
error, so no row at all is produced. -/
theorem c7_timestamp_fatal (sysOff : DT → Int) (root : Elem) (ev system : Elem)
    (eid : String)
    (hmem : ev ∈ descendantsNamed "Event" root)
    (hfs : ev.findChild "System" = some system)
    (heid : get_text system "EventID" = some eid)
    (hin : (tableLookup ALL_EVENTS eid).isSome = true)
    (hbad : get_attr system "TimeCreated" "SystemTime" = none ∨
            ∃ raw, get_attr system "TimeCreated" "SystemTime" = some raw ∧
              fromisoformat (replaceZ raw.toList) = none ∧
              ∀ dt, try_iso_to_dt_utc (some raw) = some dt → dt.tz = none) :
    ∃ err, iter_relevant_events sysOff root = .error err ∧
           mainRows sysOff root = .error err := by
  have herr : ∃ err0,
      resolveTimestamp (get_attr system "TimeCreated" "SystemTime") = .error err0 := by
    rcases hbad with hnone | ⟨raw, hraw, hfail, hnaive⟩
    · exact ⟨.attrError, by rw [hnone]; rfl⟩
    · refine ⟨.valueError, ?_⟩
      have hfail' : fromisoformat (replaceZ (String.data raw)) = none := hfail
      rw [hraw]
      unfold resolveTimestamp
      cases htry : try_iso_to_dt_utc (some raw) with
      | none => simp [retryParse, hfail, hfail']
      | some dt =>
        have hnz := hnaive dt htry
        simp [retryParse, hnz, hfail, hfail']
  obtain ⟨err0, hres⟩ := herr
  have hne := normalizeEvent_error_of sysOff ev system eid err0 hfs heid hin hres
  obtain ⟨e, he⟩ := collectRows_error_of_mem sysOff _ ev err0 hmem hne
  refine ⟨e, he, ?_⟩
  simp only [mainRows, iter_relevant_events] at he ⊢
  rw [he]
  rfl

/-- Witness for C7: the single-record input whose `TimeCreated` element has
no `SystemTime` attribute aborts the run with an `AttributeError`. -/
theorem c7_timestamp_fatal_witness :
    ∃ err, iter_relevant_events sysTzUTC rootNoTs = .error err ∧
           mainRows sysTzUTC rootNoTs = .error err :=
  c7_timestamp_fatal sysTzUTC rootNoTs evNoTs
    (.mk "System" [] none
       [.mk "EventID" [] (some "4624") [],
        .mk "TimeCreated" [] none []])
    "4624"
    (by
      simp only [rootNoTs, evNoTs, descendantsNamed, descendantsNamedIn,
        Elem.children, Elem.tag]
      simp)
    rfl rfl rfl (Or.inl rfl)

/-- Claim C8: absent optional fields never raise. First conjunct: for an
emitted row, each absent optional field (provider attribute, computer child
text, user scan) degrades to the sentinel `-` while the row is still emitted.
Second conjunct: every raised error comes from the timestamp resolution of an
allow-listed record, never from provider, host or user absence. -/
theorem c8_optional_fields_graceful :
    (∀ (sysOff : DT → Int) (ev system : Elem) (r : Row),
       ev.findChild "System" = some system →
       normalizeEvent sysOff ev = .ok (some r) →
       (get_attr system "Provider" "Name" = none → r.provider = "-") ∧
       (get_text system "Computer" = none → r.computer = "-") ∧
       (extract_username ev = none → r.user = "-")) ∧
    (∀ (sysOff : DT → Int) (ev : Elem) (err : PyErr),
       normalizeEvent sysOff ev = .error err →
       ∃ system eid,
         ev.findChild "System" = some system ∧
         get_text system "EventID" = some eid ∧
         (tableLookup ALL_EVENTS eid).isSome = true ∧
         resolveTimestamp (get_attr system "TimeCreated" "SystemTime") = .error err) := by
  constructor
  · intro sysOff ev system r hfs h
    obtain ⟨system', eid, dtUtc, hfs', heid, hin, hres, hwin,
      hsrc, hid, hlab, hprov, hcomp, hutc, hloc, huser⟩ :=
      normalizeEvent_ok_some_inv sysOff ev r h
    have hsys : system' = system := Option.some.inj (hfs'.symm.trans hfs)
    subst hsys
    refine ⟨?_, ?_, ?_⟩
    · intro hp
      rw [hprov, hp]
      rfl
    · intro hc
      rw [hcomp, hc]
      rfl
    · intro hu
      rw [huser]
      by_cases hs : (tableLookup SECURITY_EVENTS eid).isSome = true
      · simp [hs, hu, pyOrDash]
      · simp [hs, pyOrDash]
  · exact normalizeEvent_error_inv

/-- Witness for C8 at the scenario record, whose Provider attribute and
Computer child are both absent: the row is emitted with `-` in both columns. -/
theorem c8_optional_fields_graceful_witness :
    (get_attr
        (.mk "System" [] none
           [.mk "EventID" [] (some "4624") [],
            .mk "TimeCreated" [("SystemTime", "2025-08-21T13:05:00Z")] none []])
        "Provider" "Name" = none →
      ({ source := "security", event_id := "4624", label := "Logon Success",
         provider := "-", computer := "-",
         utc_time := "2025-08-21T13:05:00+00:00",
         local_time := "2025-08-21 09:05:00-04:00", user := "alice" } : Row).provider =
        "-") ∧
    (get_text
        (.mk "System" [] none
           [.mk "EventID" [] (some "4624") [],
            .mk "TimeCreated" [("SystemTime", "2025-08-21T13:05:00Z")] none []])
        "Computer" = none →
      ({ source := "security", event_id := "4624", label := "Logon Success",
         provider := "-", computer := "-",
         utc_time := "2025-08-21T13:05:00+00:00",
         local_time := "2025-08-21 09:05:00-04:00", user := "alice" } : Row).computer =
        "-") ∧
    (extract_username evScenario = none →
      ({ source := "security", event_id := "4624", label := "Logon Success",
         provider := "-", computer := "-",
         utc_time := "2025-08-21T13:05:00+00:00",
         local_time := "2025-08-21 09:05:00-04:00", user := "alice" } : Row).user =
        "-") :=
  c8_optional_fields_graceful.1 sysTzUTC evScenario
    (.mk "System" [] none
       [.mk "EventID" [] (some "4624") [],
        .mk "TimeCreated" [("SystemTime", "2025-08-21T13:05:00Z")] none []])
    _ rfl rfl

/-- Every row of a successful collection arises from the successful
normalization of one of the scanned records. -/
theorem collectRows_mem (sysOff : DT → Int) (l : List Elem) (rows : List Row)
    (r : Row) (h : collectRows sysOff l = .ok rows) (hr : r ∈ rows) :
    ∃ ev ∈ l, normalizeEvent sysOff ev = .ok (some r) := by
  induction l generalizing rows with
  | nil =>
    unfold collectRows at h
    obtain rfl := Except.ok.inj h
    cases hr
  | cons a l ih =>
    unfold collectRows at h
    cases ha : normalizeEvent sysOff a with
    | error e => rw [ha] at h; cases h
    | ok o =>
      cases o with
      | none =>
        rw [ha] at h
        obtain ⟨ev, hev, hok⟩ := ih rows h hr
        exact ⟨ev, List.mem_cons_of_mem a hev, hok⟩
      | some x =>
        rw [ha] at h
        cases hc : collectRows sysOff l with
        | error e => rw [hc] at h; cases h
        | ok rs =>
          rw [hc] at h
          obtain rfl := Except.ok.inj h
          rcases List.mem_cons.mp hr with rfl | hr'
          · exact ⟨a, List.mem_cons_self a l, ha⟩
          · obtain ⟨ev, hev, hok⟩ := ih rs hc hr'
            exact ⟨ev, List.mem_cons_of_mem a hev, hok⟩

/-- Claim C9: every row of a successful run carries an identifier that is a
key of the merged system+security table — records whose identifier is absent
or not allow-listed are never emitted. -/
theorem c9_allowlist_invariant (sysOff : DT → Int) (root : Elem) (rows : List Row)
    (r : Row) (h : iter_relevant_events sysOff root = .ok rows) (hr : r ∈ rows) :
    (tableLookup ALL_EVENTS r.event_id).isSome = true := by
  obtain ⟨ev, _, hok⟩ :=
    collectRows_mem sysOff (descendantsNamed "Event" root) rows r h hr
  obtain ⟨system, eid, dtUtc, _, _, hin, _, _, _, hid, _⟩ :=
    normalizeEvent_ok_some_inv sysOff ev r hok
  rw [hid]
  exact hin

/-- Witness for C9 at the scenario run: the emitted row's identifier 4624 is
a key of the merged table. -/
theorem c9_allowlist_invariant_witness :
    (tableLookup ALL_EVENTS
      ({ source := "security", event_id := "4624", label := "Logon Success",
         provider := "-", computer := "-",
         utc_time := "2025-08-21T13:05:00+00:00",
         local_time := "2025-08-21 09:05:00-04:00", user := "alice" } : Row).event_id).isSome =
      true :=
  c9_allowlist_invariant sysTzUTC rootScenario _ _
    (by
      simp only [iter_relevant_events, rootScenario, evScenario,
        descendantsNamed, descendantsNamedIn, Elem.children, Elem.tag]
      rfl)
    (List.mem_singleton.mpr rfl)

/-- Claim C10: when the timestamp parses timezone-aware on the first attempt,
the emitted row's `utc_time` is the serialization of that parsed datetime in
its original source offset — the instant is not converted to UTC first. -/
theorem c10_utc_time_source_offset (sysOff : DT → Int) (ev system : Elem)
    (raw : String) (dt : DT) (r : Row)
    (hfs : ev.findChild "System" = some system)
    (hraw : get_attr system "TimeCreated" "SystemTime" = some raw)
    (htry : try_iso_to_dt_utc (some raw) = some dt)
    (haware : dt.tz.isSome = true)
    (h : normalizeEvent sysOff ev = .ok (some r)) :
    r.utc_time = pyIsoformat 'T' dt := by
  obtain ⟨system', eid, dtUtc, hfs', heid, hin, hres, hwin,
    hsrc, hid, hlab, hprov, hcomp, hutc, hloc, huser⟩ :=
    normalizeEvent_ok_some_inv sysOff ev r h
  have hsys : system' = system := Option.some.inj (hfs'.symm.trans hfs)
  subst hsys
  rw [hraw] at hres
  have hnz : dt.tz.isNone = false := by
    cases hdt : dt.tz with
    | none => rw [hdt] at haware; cases haware
    | some o => rfl
  have hok : resolveTimestamp (some raw) = .ok dt := by
    unfold resolveTimestamp
    simp only [htry, hnz, Bool.false_eq_true, if_false]
  rw [hok] at hres
  obtain rfl := Except.ok.inj hres
  exact hutc

/-- Witness for C10 at the `+05:00` record: the emitted `utc_time` column is
`2025-08-21T18:05:00+05:00`, the parsed instant rendered at its source
offset. -/
theorem c10_utc_time_source_offset_witness :
    ({ source := "security", event_id := "4624", label := "Logon Success",
       provider := "-", computer := "-",
       utc_time := "2025-08-21T18:05:00+05:00",
       local_time := "2025-08-21 09:05:00-04:00", user := "-" } : Row).utc_time =
      pyIsoformat 'T' ⟨2025, 8, 21, 18, 5, 0, 0, some 18000⟩ :=
  c10_utc_time_source_offset sysTzUTC evPlus5
    (.mk "System" [] none
       [.mk "EventID" [] (some "4624") [],
        .mk "TimeCreated" [("SystemTime", "2025-08-21T18:05:00+05:00")] none []])
    "2025-08-21T18:05:00+05:00" ⟨2025, 8, 21, 18, 5, 0, 0, some 18000⟩ _
    rfl rfl rfl rfl rfl
